import Mathlib

/-!
Shallow embedding of the application layer of the three.js volume renderer
(src/App.js): the atlas flat-index addressing used by the data sampling
closure, the per-frame update loop (delta time, simulation-time uniform,
depth pre-pass rendering order), the startup pipeline, the GUI option
handlers for the custom sampling function, and the extinction-coefficient
conversions.  Machine reals are modelled as exact rationals.
-/

namespace VolumeApp

/-- Integer voxel counts per axis, mirroring the `grid_size` vector of the
soot visibility metadata. -/
structure GridSize where
  x : Nat
  y : Nat
  z : Nat

/-- Metadata for the FDS soot visibility data (`sootVisibilityMeta` in
App.js): time sample count, timestep seconds, grid size, world offset,
voxel size and the value scale applied to raw bytes. -/
structure VolumeMeta where
  time_count : Nat
  timestep : ℚ
  grid_size : GridSize
  grid_offset : ℚ × ℚ × ℚ
  voxel_size : ℚ × ℚ × ℚ
  value_scale : ℚ

/-- The `sootVisibilityMeta` constant of App.js (0.25 = 1/4, 0.04 = 1/25,
1/8 written as in the source). -/
def sootVisibilityMeta : VolumeMeta :=
  { time_count := 151
    timestep := 1/4
    grid_size := { x := 50, y := 50, z := 50 }
    grid_offset := (-1, -1, -1)
    voxel_size := (1/25, 1/25, 1/25)
    value_scale := 1/8 }

/-- The flat atlas index computed inside the sampling closure handed to
`updateAtlasTexture` in App.js:
`yi + zi*grid_size.y + xi*grid_size.y*grid_size.z + t*grid_size.x*grid_size.y*grid_size.z`. -/
def flatIndex (g : GridSize) (xi yi zi t : Nat) : Nat :=
  yi + zi * g.y + xi * g.y * g.z + t * g.x * g.y * g.z

/-- Inverse of `flatIndex`: recovers `(xi, yi, zi, t)` from a flat index by
mixed-radix division (y varies fastest, then z, then x, then t). -/
def decodeIndex (g : GridSize) (n : Nat) : Nat × Nat × Nat × Nat :=
  (n / (g.y * g.z) % g.x, n % g.y, n / g.y % g.z, n / (g.y * g.z * g.x))

/-- Render destinations used inside `App.#update`: the depth render target
(`this.#renderTarget`) and the default framebuffer (`setRenderTarget(null)`). -/
inductive RenderTarget where
  | depthTarget
  | defaultFramebuffer
deriving DecidableEq

/-- The mutable per-frame state of `App` touched by `App.#update`:
`this.#lastTime`, the volume renderer time and random uniforms, the
timescale slider value, and the spinning cube visibility plus rotation. -/
structure AppState where
  lastTime : Option ℚ
  time : ℚ
  random : ℚ
  timescale : ℚ
  cubeRotX : ℚ
  cubeRotY : ℚ
  spinningCubeVisible : Bool

/-- Delta-time computation of `App.#update` (App.js line 503):
`Math.min(1, Math.max(1e-6, lastTime === null ? 0 : (time - lastTime) / 1000))`. -/
def computeDt (lastTime : Option ℚ) (time : ℚ) : ℚ :=
  min 1 (max (1/1000000) (match lastTime with
    | none => 0
    | some last => (time - last) / 1000))

/-- Modelled from the spec: the `clamp(v, lo, hi)` operation the spec uses
to describe the delta-time guard. -/
def clamp (v lo hi : ℚ) : ℚ :=
  min hi (max lo v)

/-- One invocation of `App.#update` with host timestamp `time` (ms) and the
fresh `Math.random()` draw `rand`: computes dt, stores the timestamp,
advances the time uniform by `dt * timescale`, replaces the random uniform,
spins the cube and renders a depth pre-pass when the cube is visible, and
finally renders to the default framebuffer.  The returned list records the
render destinations in issue order. -/
def update (s : AppState) (time rand : ℚ) : AppState × List RenderTarget :=
  let dt := computeDt s.lastTime time
  let s1 : AppState :=
    { s with
      lastTime := some time
      time := s.time + dt * s.timescale
      random := rand }
  let s2 : AppState :=
    if s.spinningCubeVisible then
      { s1 with
        cubeRotX := s1.cubeRotX + dt * (2/10)
        cubeRotY := s1.cubeRotY + dt * (1/10) }
    else s1
  (s2, (if s.spinningCubeVisible then [RenderTarget.depthTarget] else []) ++
    [RenderTarget.defaultFramebuffer])

/-- Folds `App.#update` over a list of `(timestamp, random)` frames. -/
def runUpdates (s : AppState) (frames : List (ℚ × ℚ)) : AppState :=
  List.foldl (fun st f => (update st f.1 f.2).1) s frames

/-- The Depth Test checkbox onChange handler (App.js lines 399-405): lil.GUI
writes the flag, the handler sets `this.#spinningCube.visible = value`. -/
def applyDepthTestToggle (value : Bool) (s : AppState) : AppState :=
  { s with spinningCubeVisible := value }

/-- The Extinction Coefficient slider onChange handler conversion
(App.js line 377): `options.distance = 3.912 / value`. -/
def coefficientToDistance (value : ℚ) : ℚ :=
  3912/1000 / value

/-- The Visible Range slider onChange handler conversion (App.js line 385):
`options.extinctionCoefficient = 3.912 / value`. -/
def distanceToCoefficient (value : ℚ) : ℚ :=
  3912/1000 / value

/-- Byte scaling performed by the load pipeline (App.js lines 31-35):
`visibilityData[i] = bytes[i] * sootVisibilityMeta.value_scale`. -/
def scaleBytes (bytes : List Nat) : List ℚ :=
  bytes.map (fun v : Nat => (v : ℚ) * sootVisibilityMeta.value_scale)

/-- Externally visible actions performed by the `App` constructor, in
source order; `updateAtlasTexture` records the data array captured by the
sampling closure. -/
inductive StartupAction where
  | createRenderer
  | createScene
  | createRenderTarget
  | createCamera
  | createVolumeRenderer
  | createAtlasTexture
  | updateAtlasTexture (visibilityData : List ℚ)
  | createGui
  | setAnimationLoop
  | addResizeListener
  | initialResize
deriving DecidableEq

/-- Action trace of the `App` constructor: scene setup, then — only when
`visibilityData !== null` — the atlas creation and fill, then GUI setup,
the animation loop installation, the resize listener and the initial
resize (App.js lines 54-489). -/
def constructorActions (visibilityData : Option (List ℚ)) : List StartupAction :=
  [StartupAction.createRenderer, StartupAction.createScene,
    StartupAction.createRenderTarget, StartupAction.createCamera,
    StartupAction.createVolumeRenderer] ++
  (match visibilityData with
    | none => []
    | some data => [StartupAction.createAtlasTexture,
        StartupAction.updateAtlasTexture data]) ++
  [StartupAction.createGui, StartupAction.setAnimationLoop,
    StartupAction.addResizeListener, StartupAction.initialResize]

/-- The `App._init` load pipeline (App.js lines 17-41): on success the
fetched bytes are scaled by the value scale; on any failure
`visibilityData` stays null; the `finally` clause constructs the `App`
either way. -/
def initApp (fetchResult : Option (List Nat)) : List StartupAction :=
  constructorActions (fetchResult.map scaleBytes)

/-- The sampling closure handed to `updateAtlasTexture` (App.js lines
129-135): computes the flat index from the received index tuple using the
soot metadata grid sizes and reads the delivered array there (out-of-range
reads modelled as 0). -/
def sootSampleFn (visibilityData : List ℚ) (maxValue : ℚ)
    (xi yi zi : Nat) (x y z : ℚ) (t : Nat) : ℚ :=
  let index := yi +
    zi * sootVisibilityMeta.grid_size.y +
    xi * sootVisibilityMeta.grid_size.y * sootVisibilityMeta.grid_size.z +
    t * sootVisibilityMeta.grid_size.x * sootVisibilityMeta.grid_size.y *
      sootVisibilityMeta.grid_size.z
  visibilityData.getD index 0 / maxValue + 3/10

/-- The pre-defined custom function presets (App.js lines 142-269), as
name/GLSL-source pairs. -/
def functionPresets : List (String × String) := [
  ("Sphere",
    "\nvec3 p = vec3(x, y, z) - vec3(1.0);\nreturn length(p);\n"),
  ("Pulsing Sphere",
    "\nvec3 p = vec3(x, y, z) - vec3(1.0);\nreturn length(p) + 0.1 * sin(t);\n"),
  ("Expanding Rings",
    "\n// Inverted normals\nvec3 p = vec3(x, y, z) - vec3(1.0);\nreturn sin(length(p) * 10.0 - t * 4.0);\n"),
  ("Cube",
    "\nvec3 p = vec3(x, y, z) - vec3(1.0);\nreturn max(max(abs(p.x), abs(p.y)), abs(p.z)) * 2.0;\n"),
  ("Spinning Cube",
    "\nvec3 p = vec3(x, y, z) - vec3(1.0);\nfloat cx = cos(t);\nfloat sx = sin(t);\nfloat rx = cx * p.x - sx * p.z;\nfloat rz = sx * p.x + cx * p.z;\nreturn max(max(abs(rx), abs(p.y)), abs(rz)) * 2.0;\n"),
  ("SphereCube Morph",
    "\nvec3 p = vec3(x, y, z) - vec3(1.0);\nfloat sphere = length(p);\nfloat cube = max(max(abs(p.x), abs(p.y)), abs(p.z));\nfloat blend = (sin(t) + 1.0) * 0.5;\nreturn mix(sphere, cube, blend) * 2.0;\n"),
  ("Torus",
    "\nvec3 p = vec3(x, y, z) - vec3(1.0);\nfloat qx = length(vec2(p.x, p.z)) - 0.5;\nreturn length(vec2(qx, p.y)) * 2.0;\n"),
  ("Surface",
    "\nfloat wave1 = sin(x * 3.0 + t) * 0.1;\nfloat wave2 = sin(z * 2.5 + t * 1.5) * 0.1;\nfloat wave3 = sin((x + z) * 4.0 + t * 0.8) * 0.05;\nreturn y - 1.0 - (wave1 + wave2 + wave3);\n"),
  ("Wobbly Sphere",
    "\nvec3 p = vec3(x, y, z) - vec3(1.0);\nfloat radius = 0.5 + 0.05 * sin(10.0 * atan(p.y, p.x) + t);\nreturn length(p) - radius;\n"),
  ("Twister",
    "\n// Inverted normals\nvec3 p = vec3(x, y, z) - vec3(1.0);\nfloat r = length(p.xy);\nfloat theta = atan(p.y, p.x) + t + p.z * 3.0;\nfloat nx = r * cos(theta);\nfloat ny = r * sin(theta);\nfloat funnel = p.z + 0.3 * r;\nreturn sin(nx * 4.0) * cos(ny * 4.0) - funnel;\n"),
  ("Warp Tunnel",
    "\nvec3 p = vec3(x, y, z) - vec3(1.0);\nfloat r = length(vec2(p.x, p.y)) - 0.5;\nreturn r + sin(p.z * 5.0 - t * 3.0) * 0.1;\n"),
  ("Sine Flow",
    "\n// Inverted normals\nreturn sin(x * 2.0 + t) * sin(y * 2.0 - t) * sin(z * 2.0 + t);\n"),
  ("Gyroid",
    "\nreturn (\n    sin(x * 10.0) * cos(y * 10.0) +\n    sin(y * 10.0) * cos(z * 10.0) +\n    sin(z * 10.0) * cos(x * 10.0)\n);\n"),
  ("Gyroid Animated",
    "\nreturn (\n    sin(x * 10.0 + t) * cos(y * 10.0) +\n    sin(y * 10.0 + t) * cos(z * 10.0) +\n    sin(z * 10.0 + t) * cos(x * 10.0)\n);\n"),
  ("Smoke",
    "\nreturn 0.2 * (\n    sin(x * 7.5 + t) +\n    sin(-y * 5.7 - 1.3 * t) * sin(z * 3.3 + 2.3 * t) +\n    sin((x + y) * 6.2 + 2.5 * t) * sin((y + z) * 4.4 - 0.7 * t)\n);\n"),
  ("Mandelbulb",
    "\nvec3 p = vec3(x, y, z) - vec3(1.0);\nvec3 Z = p;\nfloat dr = 1.0;\nfloat r = 0.0;\n\nfor (int i = 0; i < 8; i++) \x7b\n    r = length(Z);\n    float theta = acos(Z.z / r);\n    float phi = atan(Z.y, Z.x);\n    float s = step(r, 2.0);\n\n    dr = mix(dr, pow(r, 7.0) * 8.0 * dr + 1.0, s);\n    float zr = pow(r, 8.0);\n\n    theta *= 8.0;\n    phi *= 8.0;\n    Z = mix(Z, zr * vec3(sin(theta + t) * cos(phi), sin(theta) * sin(phi), cos(theta)) + p, s);\n\x7d\n\nreturn 0.5 * log(r) * r / dr * 10.0 + 1.0;\n")]

/-- The `options` configuration object (App.js lines 271-291). -/
structure COptions where
  distance : ℚ
  extinctionCoefficient : ℚ
  normalEpsilon : ℚ
  useVolumetricDepthTest : Bool
  useExtinctionCoefficient : Bool
  useValueAsExtinctionCoefficient : Bool
  usePointLights : Bool
  useDirectionalLights : Bool
  useRandomStart : Bool
  renderMeanValue : Bool
  invertNormals : Bool
  renderNormals : Bool
  raySteps : Nat
  functionPreset : String
  useCustomFunction : Bool
  customFunction : Option String

/-- The initial `options` value (App.js lines 271-291); `null` is modelled
as `none`. -/
def initialOptions : COptions :=
  { distance := 1
    extinctionCoefficient := 1
    normalEpsilon := 1/100
    useVolumetricDepthTest := false
    useExtinctionCoefficient := true
    useValueAsExtinctionCoefficient := false
    usePointLights := false
    useDirectionalLights := false
    useRandomStart := true
    renderMeanValue := false
    invertNormals := false
    renderNormals := false
    raySteps := 64
    functionPreset := "Pulsing Sphere"
    useCustomFunction := false
    customFunction := none }

/-- The state touched by the custom-function handlers: the `options` object
and the GLSL textarea contents. -/
structure UiState where
  options : COptions
  glslTextarea : String

/-- Initial UI state: default options, textarea seeded with the trimmed
default preset source (App.js lines 299-300). -/
def initialUiState : UiState :=
  { options := initialOptions
    glslTextarea := ((functionPresets.lookup initialOptions.functionPreset).getD "").trim }

/-- The three custom-function configuration events: a preset selection in
the dropdown, a manual edit of the GLSL textarea, and the Use Function
checkbox toggle. -/
inductive ConfigEvent where
  | presetChange (nm : String)
  | textareaInput (text : String)
  | toggleUseFunction (value : Bool)

/-- The custom-function handlers (App.js lines 302-334).  A preset
selection writes the trimmed preset source into the textarea and into
`customFunction` and sets `useCustomFunction`; a textarea edit while the
custom function is active clears both fields; the Use Function toggle
(whose bound flag lil.GUI writes before the handler runs) captures the
textarea contents or clears `customFunction`. -/
def applyConfigEvent (s : UiState) : ConfigEvent → UiState
  | ConfigEvent.presetChange nm =>
    let value := ((functionPresets.lookup nm).getD "").trim
    { glslTextarea := value
      options := { s.options with
        functionPreset := nm
        customFunction := some value
        useCustomFunction := true } }
  | ConfigEvent.textareaInput text =>
    if s.options.useCustomFunction then
      { glslTextarea := text
        options := { s.options with
          customFunction := none
          useCustomFunction := false } }
    else
      { s with glslTextarea := text }
  | ConfigEvent.toggleUseFunction value =>
    let opts := { s.options with useCustomFunction := value }
    if value then
      { s with options := { opts with customFunction := some s.glslTextarea } }
    else
      { s with options := { opts with customFunction := none } }

/-- The implicit configuration invariant: the Use Function flag is set
exactly when a custom function source is present. -/
def customFunctionInvariant (o : COptions) : Prop :=
  o.useCustomFunction = true ↔ o.customFunction.isSome = true

end VolumeApp

namespace VolumeApp

theorem mixedRadix_step {a b c d : Nat} (hab : a < b) (hcd : c < d) :
    a + b * c < b * d := by
  calc a + b * c < b + b * c := by omega
    _ = b * (c + 1) := by ring
    _ ≤ b * d := Nat.mul_le_mul_left b hcd

theorem flatIndex_eq_nested (g : GridSize) (xi yi zi t : Nat) :
    flatIndex g xi yi zi t = yi + g.y * (zi + g.z * (xi + g.x * t)) := by
  unfold flatIndex
  ring

theorem flatIndex_lt (g : GridSize) (tc : Nat) {xi yi zi t : Nat}
    (hx : xi < g.x) (hy : yi < g.y) (hz : zi < g.z) (ht : t < tc) :
    flatIndex g xi yi zi t < g.x * g.y * g.z * tc := by
  have h1 : xi + g.x * t < g.x * tc := mixedRadix_step hx ht
  have h2 : zi + g.z * (xi + g.x * t) < g.z * (g.x * tc) := mixedRadix_step hz h1
  have h3 : yi + g.y * (zi + g.z * (xi + g.x * t)) < g.y * (g.z * (g.x * tc)) :=
    mixedRadix_step hy h2
  have hre : g.y * (g.z * (g.x * tc)) = g.x * g.y * g.z * tc := by ring
  rw [flatIndex_eq_nested]
  omega

theorem decodeIndex_flatIndex (g : GridSize) {xi yi zi t : Nat}
    (hx : xi < g.x) (hy : yi < g.y) (hz : zi < g.z) :
    decodeIndex g (flatIndex g xi yi zi t) = (xi, yi, zi, t) := by
  have hgy : 0 < g.y := Nat.lt_of_le_of_lt (Nat.zero_le yi) hy
  have hgz : 0 < g.z := Nat.lt_of_le_of_lt (Nat.zero_le zi) hz
  have hgx : 0 < g.x := Nat.lt_of_le_of_lt (Nat.zero_le xi) hx
  have hnested := flatIndex_eq_nested g xi yi zi t
  have hdiv1 : flatIndex g xi yi zi t / g.y = zi + g.z * (xi + g.x * t) := by
    rw [hnested, Nat.add_mul_div_left _ _ hgy, Nat.div_eq_of_lt hy, Nat.zero_add]
  have hmod1 : flatIndex g xi yi zi t % g.y = yi := by
    rw [hnested, Nat.add_mul_mod_self_left, Nat.mod_eq_of_lt hy]
  have hdiv2 : flatIndex g xi yi zi t / g.y / g.z = xi + g.x * t := by
    rw [hdiv1, Nat.add_mul_div_left _ _ hgz, Nat.div_eq_of_lt hz, Nat.zero_add]
  have hmod2 : flatIndex g xi yi zi t / g.y % g.z = zi := by
    rw [hdiv1, Nat.add_mul_mod_self_left, Nat.mod_eq_of_lt hz]
  have hdiv3 : flatIndex g xi yi zi t / g.y / g.z / g.x = t := by
    rw [hdiv2, Nat.add_mul_div_left _ _ hgx, Nat.div_eq_of_lt hx, Nat.zero_add]
  have hmod3 : flatIndex g xi yi zi t / g.y / g.z % g.x = xi := by
    rw [hdiv2, Nat.add_mul_mod_self_left, Nat.mod_eq_of_lt hx]
  unfold decodeIndex
  rw [← Nat.div_div_eq_div_mul, show g.y * g.z * g.x = g.y * (g.z * g.x) by ring,
    ← Nat.div_div_eq_div_mul, ← Nat.div_div_eq_div_mul]
  rw [hmod1, hmod2, hmod3, hdiv3]

theorem flatIndex_decodeIndex (g : GridSize) (n : Nat) :
    flatIndex g (decodeIndex g n).1 (decodeIndex g n).2.1 (decodeIndex g n).2.2.1
      (decodeIndex g n).2.2.2 = n := by
  have e1 : n / (g.y * g.z) = n / g.y / g.z := (Nat.div_div_eq_div_mul n g.y g.z).symm
  have e2 : n / (g.y * g.z * g.x) = n / g.y / g.z / g.x := by
    rw [Nat.div_div_eq_div_mul, Nat.div_div_eq_div_mul, Nat.mul_assoc]
  have m1 : n % g.y + g.y * (n / g.y) = n := Nat.mod_add_div n g.y
  have m2 : n / g.y % g.z + g.z * (n / g.y / g.z) = n / g.y := Nat.mod_add_div _ _
  have m3 : n / g.y / g.z % g.x + g.x * (n / g.y / g.z / g.x) = n / g.y / g.z :=
    Nat.mod_add_div _ _
  calc flatIndex g (decodeIndex g n).1 (decodeIndex g n).2.1 (decodeIndex g n).2.2.1
        (decodeIndex g n).2.2.2
      = n % g.y + g.y * (n / g.y % g.z + g.z *
          (n / g.y / g.z % g.x + g.x * (n / g.y / g.z / g.x))) := by
        unfold decodeIndex flatIndex
        rw [e1, e2]
        ring
    _ = n := by rw [m3, m2, m1]

theorem decodeIndex_mem (g : GridSize) (tc : Nat)
    (hx : 0 < g.x) (hy : 0 < g.y) (hz : 0 < g.z) {n : Nat}
    (hn : n < g.x * g.y * g.z * tc) :
    (decodeIndex g n).1 < g.x ∧ (decodeIndex g n).2.1 < g.y ∧
      (decodeIndex g n).2.2.1 < g.z ∧ (decodeIndex g n).2.2.2 < tc := by
  refine ⟨Nat.mod_lt _ hx, Nat.mod_lt _ hy, Nat.mod_lt _ hz, ?_⟩
  show n / (g.y * g.z * g.x) < tc
  have hpos : 0 < g.y * g.z * g.x := Nat.mul_pos (Nat.mul_pos hy hz) hx
  rw [Nat.div_lt_iff_lt_mul hpos]
  have : tc * (g.y * g.z * g.x) = g.x * g.y * g.z * tc := by ring
  omega

/-- Claim C1: for strictly positive grid dimensions and time count, the map
`(x, y, z, t) ↦ y + z*gy + x*gy*gz + t*gx*gy*gz` is a bijection from
`[0,gx)×[0,gy)×[0,gz)×[0,tc)` onto `[0, gx*gy*gz*tc)`: no two distinct
index tuples share a flat index, and every flat index below the product is
hit. -/
theorem flatIndex_bijective (g : GridSize) (tc : Nat)
    (hx : 0 < g.x) (hy : 0 < g.y) (hz : 0 < g.z) (htc : 0 < tc) :
    Set.BijOn (fun p : Nat × Nat × Nat × Nat => flatIndex g p.1 p.2.1 p.2.2.1 p.2.2.2)
      {p : Nat × Nat × Nat × Nat | p.1 < g.x ∧ p.2.1 < g.y ∧ p.2.2.1 < g.z ∧ p.2.2.2 < tc}
      (Set.Iio (g.x * g.y * g.z * tc)) := by
  refine ⟨?_, ?_, ?_⟩
  · intro p hp
    exact flatIndex_lt g tc hp.1 hp.2.1 hp.2.2.1 hp.2.2.2
  · intro p hp q hq hpq
    have dp := decodeIndex_flatIndex g hp.1 hp.2.1 hp.2.2.1 (t := p.2.2.2)
    have dq := decodeIndex_flatIndex g hq.1 hq.2.1 hq.2.2.1 (t := q.2.2.2)
    have : decodeIndex g (flatIndex g p.1 p.2.1 p.2.2.1 p.2.2.2)
        = decodeIndex g (flatIndex g q.1 q.2.1 q.2.2.1 q.2.2.2) := by
      simp only at hpq
      rw [hpq]
    rw [dp, dq] at this
    obtain ⟨p1, p2, p3, p4⟩ := p
    obtain ⟨q1, q2, q3, q4⟩ := q
    simpa using this
  · intro n hn
    have hmem := decodeIndex_mem g tc hx hy hz hn
    exact ⟨decodeIndex g n, ⟨hmem.1, hmem.2.1, hmem.2.2.1, hmem.2.2.2⟩,
      flatIndex_decodeIndex g n⟩

/-- Witness for C1 at the concrete grid (2, 3, 4) with 5 time samples. -/
theorem flatIndex_bijective_witness :
    0 < (2 : Nat) ∧ 0 < (3 : Nat) ∧ 0 < (4 : Nat) ∧ 0 < (5 : Nat) ∧
    Set.BijOn
      (fun p : Nat × Nat × Nat × Nat =>
        flatIndex { x := 2, y := 3, z := 4 } p.1 p.2.1 p.2.2.1 p.2.2.2)
      {p : Nat × Nat × Nat × Nat | p.1 < 2 ∧ p.2.1 < 3 ∧ p.2.2.1 < 4 ∧ p.2.2.2 < 5}
      (Set.Iio (2 * 3 * 4 * 5)) :=
  ⟨by decide, by decide, by decide, by decide,
    flatIndex_bijective { x := 2, y := 3, z := 4 } 5
      (by decide) (by decide) (by decide) (by decide)⟩

theorem update_time_eq (s : AppState) (time rand : ℚ) :
    (update s time rand).1.time = s.time + computeDt s.lastTime time * s.timescale := by
  unfold update
  cases h : s.spinningCubeVisible <;> simp [h]

theorem update_timescale_eq (s : AppState) (time rand : ℚ) :
    (update s time rand).1.timescale = s.timescale := by
  unfold update
  cases h : s.spinningCubeVisible <;> simp [h]

theorem computeDt_ge (lastTime : Option ℚ) (time : ℚ) :
    (1/1000000 : ℚ) ≤ computeDt lastTime time := by
  unfold computeDt
  exact le_min (by norm_num) (le_max_left _ _)

/-- Claim C2: the per-frame delta time computed by `App.#update` is exactly
the clamp to `[1e-6, 1]` of the raw delta, which is 0 on the first frame and
`(now - last) / 1000` afterwards. -/
theorem computeDt_eq_clamp (lastTime : Option ℚ) (time : ℚ) :
    computeDt lastTime time =
      clamp (match lastTime with
        | none => 0
        | some last => (time - last) / 1000) (1/1000000) 1 := by
  unfold computeDt clamp
  rfl

/-- Counterexample for C3: on the first frame (`lastTime` absent) the code
clamps the raw 0 up to 1e-6, so dt is not 0. -/
theorem computeDt_first_frame_ne_zero :
    computeDt none 0 = 1/1000000 ∧ ¬ computeDt none 0 = 0 := by
  constructor
  · unfold computeDt
    norm_num
  · unfold computeDt
    norm_num

/-- Claim C3 (amended): the first-frame delta time is the lower clamp bound
1e-6 rather than 0; with last = 1000 ms and now = 1250 ms dt = 0.25 s;
with last = 0 and now = 5000 ms dt clamps to 1.0 s. -/
theorem computeDt_scenarios :
    (∀ time : ℚ, computeDt none time = 1/1000000) ∧
    computeDt (some 1000) 1250 = 1/4 ∧
    computeDt (some 0) 5000 = 1 := by
  refine ⟨fun time => ?_, ?_, ?_⟩ <;> unfold computeDt <;> norm_num

/-- Claim C4: each `App.#update` call advances the simulation-time uniform
by exactly `dt * timescale` on top of its previous value. -/
theorem update_advances_time (s : AppState) (time rand : ℚ) :
    (update s time rand).1.time =
      s.time + computeDt s.lastTime time * s.timescale :=
  update_time_eq s time rand

/-- Claim C7: after the Depth Test toggle, a frame with the toggle enabled
issues exactly a render into the depth render target strictly before the
final render to the default framebuffer, while a frame with the toggle
disabled issues no render into the depth render target. -/
theorem depth_prepass_order (s : AppState) (time rand : ℚ) (value : Bool) :
    (value = true →
      (update (applyDepthTestToggle value s) time rand).2 =
        [RenderTarget.depthTarget, RenderTarget.defaultFramebuffer]) ∧
    (value = false →
      RenderTarget.depthTarget ∉ (update (applyDepthTestToggle value s) time rand).2) := by
  constructor
  · intro h
    subst h
    simp [update, applyDepthTestToggle]
  · intro h
    subst h
    simp [update, applyDepthTestToggle]

/-- Witness for C7 at a concrete state, one frame per toggle direction. -/
theorem depth_prepass_order_witness :
    (update (applyDepthTestToggle true
        { lastTime := none, time := 0, random := 0, timescale := 1,
          cubeRotX := 0, cubeRotY := 0, spinningCubeVisible := false }) 0 0).2 =
      [RenderTarget.depthTarget, RenderTarget.defaultFramebuffer] ∧
    RenderTarget.depthTarget ∉ (update (applyDepthTestToggle false
        { lastTime := none, time := 0, random := 0, timescale := 1,
          cubeRotX := 0, cubeRotY := 0, spinningCubeVisible := true }) 0 0).2 :=
  ⟨(depth_prepass_order _ 0 0 true).1 rfl,
    (depth_prepass_order _ 0 0 false).2 rfl⟩

theorem runUpdates_cons (s : AppState) (f : ℚ × ℚ) (fs : List (ℚ × ℚ)) :
    runUpdates s (f :: fs) = runUpdates (update s f.1 f.2).1 fs :=
  rfl

/-- Claim C10: with the timescale inside its GUI range `[0, 8]`, the
simulation-time uniform never decreases over any sequence of update calls,
since each frame adds `dt * timescale ≥ 0` with `dt ≥ 1e-6`. -/
theorem time_uniform_monotone (s : AppState) (frames : List (ℚ × ℚ))
    (h0 : 0 ≤ s.timescale) (h8 : s.timescale ≤ 8) :
    s.time ≤ (runUpdates s frames).time := by
  induction frames generalizing s with
  | nil => simp [runUpdates]
  | cons f fs ih =>
    rw [runUpdates_cons]
    have hdt : (0 : ℚ) ≤ computeDt s.lastTime f.1 :=
      le_trans (by norm_num) (computeDt_ge s.lastTime f.1)
    have hstep : s.time ≤ (update s f.1 f.2).1.time := by
      rw [update_time_eq]
      exact le_add_of_nonneg_right (mul_nonneg hdt h0)
    refine le_trans hstep (ih _ ?_ ?_)
    · rw [update_timescale_eq]
      exact h0
    · rw [update_timescale_eq]
      exact h8

/-- Witness for C10 at a concrete start state and three frames. -/
theorem time_uniform_monotone_witness :
    (0 : ℚ) ≤ 1 ∧ (1 : ℚ) ≤ 8 ∧
    AppState.time
      { lastTime := none, time := 0, random := 0, timescale := 1,
        cubeRotX := 0, cubeRotY := 0, spinningCubeVisible := false } ≤
    (runUpdates
      { lastTime := none, time := 0, random := 0, timescale := 1,
        cubeRotX := 0, cubeRotY := 0, spinningCubeVisible := false }
      [(0, 0), (100, 1/2), (2000, 1/3)]).time :=
  ⟨by norm_num, by norm_num,
    time_uniform_monotone _ [(0, 0), (100, 1/2), (2000, 1/3)]
      (by norm_num) (by norm_num)⟩

/-- Claim C5: the extinction-coefficient/visible-range conversion
`3.912 / value` used by both slider handlers is self-inverse: converting a
strictly positive coefficient to a distance and back reproduces it. -/
theorem extinction_conversion_self_inverse (c : ℚ) (hc : 0 < c) :
    distanceToCoefficient (coefficientToDistance c) = c := by
  have hc0 : c ≠ 0 := ne_of_gt hc
  unfold coefficientToDistance distanceToCoefficient
  rw [div_div_eq_mul_div, mul_comm, mul_div_assoc, div_self (by norm_num), mul_one]

/-- Witness for C5 at the concrete coefficient 2. -/
theorem extinction_conversion_self_inverse_witness :
    (0 : ℚ) < 2 ∧ distanceToCoefficient (coefficientToDistance 2) = 2 :=
  ⟨by norm_num, extinction_conversion_self_inverse 2 (by norm_num)⟩

/-- Claim C6: the startup pipeline always constructs the `App` and installs
the animation loop, and when the data pipeline failed (result null) the
constructor makes no `createAtlasTexture` and no `updateAtlasTexture`
call, so rendering still proceeds. -/
theorem startup_without_data :
    (∀ fetchResult : Option (List Nat),
      StartupAction.setAnimationLoop ∈ initApp fetchResult) ∧
    StartupAction.createAtlasTexture ∉ initApp none ∧
    ∀ data : List ℚ, StartupAction.updateAtlasTexture data ∉ initApp none := by
  refine ⟨fun fetchResult => ?_, ?_, fun data => ?_⟩
  · cases fetchResult <;> simp [initApp, constructorActions]
  · simp [initApp, constructorActions]
  · simp [initApp, constructorActions]

/-- Claim C8: the load pipeline scales every raw byte by the metadata value
scale, the scaled array is exactly what the `updateAtlasTexture` closure
captures, and that closure addresses the array at exactly the flat index
`y + z*gy + x*gy*gz + t*gx*gy*gz` for every index tuple it receives. -/
theorem sampleFn_scaling_and_addressing :
    (∀ (bytes : List Nat) (i : Nat),
      (scaleBytes bytes)[i]? =
        Option.map (fun v : Nat => (v : ℚ) * sootVisibilityMeta.value_scale) bytes[i]?) ∧
    (∀ bytes : List Nat,
      StartupAction.updateAtlasTexture (scaleBytes bytes) ∈ initApp (some bytes)) ∧
    ∀ (visibilityData : List ℚ) (maxValue : ℚ) (xi yi zi : Nat) (x y z : ℚ) (t : Nat),
      sootSampleFn visibilityData maxValue xi yi zi x y z t =
        visibilityData.getD (flatIndex sootVisibilityMeta.grid_size xi yi zi t) 0
          / maxValue + 3/10 := by
  refine ⟨fun bytes i => ?_, fun bytes => ?_, fun d m xi yi zi x y z t => ?_⟩
  · rw [scaleBytes, List.getElem?_map]
  · simp [initApp, constructorActions]
  · rfl

/-- Claim C9: `useCustomFunction` is set exactly when `customFunction` is
non-null: the invariant holds initially and is preserved by the preset
handler, the textarea handler and the Use Function toggle handler. -/
theorem custom_function_invariant_preserved :
    customFunctionInvariant initialOptions ∧
    ∀ (s : UiState) (e : ConfigEvent),
      customFunctionInvariant s.options →
      customFunctionInvariant ((applyConfigEvent s e).options) := by
  constructor
  · simp [customFunctionInvariant, initialOptions]
  · intro s e h
    cases e with
    | presetChange nm =>
      simp [applyConfigEvent, customFunctionInvariant]
    | textareaInput text =>
      by_cases hu : s.options.useCustomFunction
      · simp [applyConfigEvent, hu, customFunctionInvariant]
      · simpa [applyConfigEvent, hu, customFunctionInvariant] using h
    | toggleUseFunction value =>
      cases value <;> simp [applyConfigEvent, customFunctionInvariant]

/-- Witness for C9: the invariant holds initially, and is preserved by a
concrete Use Function toggle from the initial UI state. -/
theorem custom_function_invariant_witness :
    customFunctionInvariant initialOptions ∧
    customFunctionInvariant
      ((applyConfigEvent initialUiState (ConfigEvent.toggleUseFunction true)).options) :=
  ⟨custom_function_invariant_preserved.1,
    custom_function_invariant_preserved.2 initialUiState
      (ConfigEvent.toggleUseFunction true) custom_function_invariant_preserved.1⟩

end VolumeApp
